import Mathlib

/-
Shallow embedding of src/engine/core.py from the inasafe repository
(module engine.core, "Computational engine for Risk in a Box core").

The module provides three operations:
  * check_data_integrity(layer_files) - keyword / projection / geotransform /
    coordinate / dimension validation over a list of layers;
  * calculate_impact(layers, impact_fcn, comment) - the orchestrator that
    validates, runs the plugin, writes the result and assigns a default name;
  * get_bounding_boxes(haz_data, exp_data, req_bbox) - bounding box
    resolution via the external intersection primitive.

Python assertions and raised exceptions are embedded as Except values.
Python floats are idealised as rationals.  External collaborators that are
not under src (the Layer classes, storage.utilities, storage.projection,
the REQUIRED_KEYWORDS configuration) are modelled from the spec; each such
definition carries a doc comment saying so.  Side effects of the
orchestrator (factory call, plugin run, filename generation, file write,
name assignment) are recorded in an explicit event log.
-/

set_option linter.unusedVariables false

deriving instance DecidableEq for Except

unseal Rat.add Rat.mul Rat.sub Rat.inv

namespace Riab

/-- Modelled from the spec: storage.projection.DEFAULT_PROJECTION, the
process-wide default coordinate reference system constant (WGS84
geographic), an external collaborator of engine.core. -/
def DEFAULT_PROJECTION : String := "+proj=longlat +datum=WGS84 +no_defs"

/-- Modelled from the spec: storage.projection.Projection, an opaque
coordinate-reference-system descriptor with value equality. -/
structure Projection where
  wkt : String
deriving DecidableEq

/-- Modelled from the spec: utilities.REQUIRED_KEYWORDS, the fixed
required-keyword configuration enumerated externally. -/
def REQUIRED_KEYWORDS : List String := ["title", "category"]

/-- Payload of a layer: per the data model a layer is either a raster
(rows, columns and a 6-component geotransform) or a vector (a sequence of
coordinate points).  The raster-only and vector-only attributes of the
external Layer classes are modelled from the spec. -/
inductive LayerData where
  | raster (rows columns : Nat) (geotransform : List ℚ)
  | vector (geometry : List (ℚ × ℚ))
deriving DecidableEq

/-- Modelled from the spec: a Layer produced by the external reader, with
name, keyword metadata, projection, and raster or vector payload. -/
structure Layer where
  name : String
  keywords : List (String × String)
  projection : Projection
  data : LayerData
deriving DecidableEq

def Layer.is_raster (l : Layer) : Bool :=
  match l.data with
  | .raster _ _ _ => true
  | .vector _ => false

def Layer.is_vector (l : Layer) : Bool :=
  match l.data with
  | .raster _ _ _ => false
  | .vector _ => true

/-- Failures of check_data_integrity.  The first seven constructors are the
assertion messages of the source; attributeError and indexError model the
Python runtime errors raised by reading a raster-only attribute of a vector
layer and by indexing an empty list, respectively. -/
inductive CheckError where
  | missingKeyword (layer kw : String)
  | emptyKeyword (layer kw : String)
  | projectionMismatch (layer : String) (expected actual : Projection)
  | geotransformMismatch (expected actual : List ℚ)
  | coordinateMismatch (expected actual : List (ℚ × ℚ))
  | emptyVectorLayer (layer : String)
  | dimensionMismatch (layer : String) (isRows : Bool) (actual expected : Nat)
  | attributeError
  | indexError
deriving DecidableEq

/-- numpy componentwise closeness |x - y| <= atol + rtol * |y|, the formula
of numpy.allclose applied at one component (x from the first array, y from
the second). -/
def approxEq (rtol atol x y : ℚ) : Bool :=
  decide (|x - y| ≤ atol + rtol * |y|)

/-- numpy default relative tolerance 1e-05. -/
def npRtol : ℚ := 1 / 10 ^ 5

/-- numpy default absolute tolerance 1e-08; numpy.allclose keeps this
default also when only rtol is overridden, as in the source call
numpy.allclose(geotransform, layer.get_geotransform(), rtol=1.0e-12). -/
def npAtol : ℚ := 1 / 10 ^ 8

/-- The relative tolerance 1.0e-12 passed for geotransform comparison. -/
def geoRtol : ℚ := 1 / 10 ^ 12

/-- numpy.allclose on two equally long sequences (geotransforms always have
6 components per the data model, so broadcasting of unequal shapes does not
arise). -/
def npAllclose (rtol atol : ℚ) (a b : List ℚ) : Bool :=
  a.length == b.length && (a.zip b).all fun p => approxEq rtol atol p.1 p.2

/-- numpy.allclose with default tolerances on two coordinate sequences, as
used for vector geometry comparison. -/
def coordsAllclose (a b : List (ℚ × ℚ)) : Bool :=
  a.length == b.length && (a.zip b).all fun p =>
    approxEq npRtol npAtol p.1.1 p.2.1 && approxEq npRtol npAtol p.1.2 p.2.2

/-- The keyword check of check_data_integrity for one layer: every required
keyword must be present (kw in keywords) with a truthy (non-empty) value. -/
def checkKeywordsAux (layer : Layer) : List String → Except CheckError Unit
  | [] => .ok ()
  | kw :: rest =>
    match layer.keywords.lookup kw with
    | none => .error (.missingKeyword layer.name kw)
    | some v =>
      if v.isEmpty then .error (.emptyKeyword layer.name kw)
      else checkKeywordsAux layer rest

/-- Mutable locals of the per-layer loop of check_data_integrity:
reference_projection, geotransform and coordinates. -/
structure CheckState where
  refProj : Option Projection
  geo : Option (List ℚ)
  coords : Option (List (ℚ × ℚ))
deriving DecidableEq

/-- Initial loop state of check_data_integrity: the reference projection is
pre-seeded with Projection(DEFAULT_PROJECTION) while geotransform and
coordinates start as None. -/
def initState : CheckState :=
  { refProj := some ⟨DEFAULT_PROJECTION⟩, geo := none, coords := none }

/-- Projection consistency step: adopt the layer projection when the
reference is unset, otherwise require equality. -/
def procProj (st : CheckState) (layer : Layer) : Except CheckError CheckState :=
  match st.refProj with
  | none => .ok { st with refProj := some layer.projection }
  | some rp =>
    if rp = layer.projection then .ok st
    else .error (.projectionMismatch layer.name rp layer.projection)

/-- Geotransform consistency step for raster layers: adopt the first raster
geotransform, compare later ones with numpy.allclose at rtol 1.0e-12. -/
def procGeo (st : CheckState) (layer : Layer) : Except CheckError CheckState :=
  match layer.data with
  | .vector _ => .ok st
  | .raster _ _ g =>
    match st.geo with
    | none => .ok { st with geo := some g }
    | some ref =>
      if npAllclose geoRtol npAtol ref g then .ok st
      else .error (.geotransformMismatch ref g)

/-- Vector step: adopt or compare coordinates, then require a non-empty
layer (len(layer) > 0). -/
def procVec (st : CheckState) (layer : Layer) : Except CheckError CheckState :=
  match layer.data with
  | .raster _ _ _ => .ok st
  | .vector pts =>
    let afterCoords : Except CheckError CheckState :=
      match st.coords with
      | none => .ok { st with coords := some pts }
      | some ref =>
        if coordsAllclose ref pts then .ok st
        else .error (.coordinateMismatch ref pts)
    match afterCoords with
    | .error e => .error e
    | .ok st1 =>
      if 0 < pts.length then .ok st1
      else .error (.emptyVectorLayer layer.name)

/-- One iteration of the per-layer loop of check_data_integrity: keyword
check, projection check, raster geotransform check, vector coordinate and
length check, in source order. -/
def processLayer (st : CheckState) (layer : Layer) : Except CheckError CheckState :=
  match checkKeywordsAux layer REQUIRED_KEYWORDS with
  | .error e => .error e
  | .ok _ =>
    match procProj st layer with
    | .error e => .error e
    | .ok st1 =>
      match procGeo st1 layer with
      | .error e => .error e
      | .ok st2 => procVec st2 layer

/-- The per-layer loop of check_data_integrity. -/
def runChecks (st : CheckState) : List Layer → Except CheckError CheckState
  | [] => .ok st
  | l :: rest =>
    match processLayer st l with
    | .error e => .error e
    | .ok st1 => runChecks st1 rest

/-- Second pass of check_data_integrity: every raster layer must have the
reference row and column counts. -/
def alignLoop (M N : Nat) (refname : String) : List Layer → Except CheckError Unit
  | [] => .ok ()
  | l :: rest =>
    match l.data with
    | .vector _ => alignLoop M N refname rest
    | .raster r c _ =>
      if r ≠ M then .error (.dimensionMismatch l.name true r M)
      else if c ≠ N then .error (.dimensionMismatch l.name false c N)
      else alignLoop M N refname rest

/-- Second pass entry: the source unconditionally reads rows, columns and
get_name() of layer_files[0]; on an empty list that indexing raises
(indexError), and on a vector first layer the raster-only rows attribute is
missing (attributeError). -/
def checkAlignment (layer_files : List Layer) : Except CheckError Unit :=
  match layer_files with
  | [] => .error .indexError
  | l0 :: _ =>
    match l0.data with
    | .vector _ => .error .attributeError
    | .raster M N _ => alignLoop M N l0.name layer_files

/-- engine.core.check_data_integrity: the per-layer loop followed by the
raster alignment pass. -/
def check_data_integrity (layer_files : List Layer) : Except CheckError Unit :=
  match runChecks initState layer_files with
  | .error e => .error e
  | .ok _ => checkAlignment layer_files

/-- Result of an impact function: raster flag, optional name, filename
(assigned by the orchestrator).  Modelled from the spec for the external
result object with its is_raster, get_name/set_name, filename and
write_to_file members. -/
structure ImpactResult where
  is_raster : Bool
  name : Option String
  filename : Option String
deriving DecidableEq

/-- Modelled from the spec: the plugin contract, a run member, the optional
plugin_name attribute (the hasattr probe of the source is modelled as an
Option field), and a string rendering used in error messages. -/
structure ImpactFunction where
  run : List Layer → Option ImpactResult
  plugin_name : Option String
  str : String

/-- Truthiness of F.get_name() in the source: None and the empty string are
falsy. -/
def nameTruthy : Option String → Bool
  | none => false
  | some s => !s.isEmpty

/-- Failures of calculate_impact: a propagated validation failure, or the
assertion that the impact function returned None. -/
inductive EngineError where
  | validation (e : CheckError)
  | computation (functionStr : String)
deriving DecidableEq

/-- Observable effects of calculate_impact, in invocation order: validation
completed, factory called, plugin run called, unique filename generated,
result written to file, result name assigned. -/
inductive Event where
  | validated
  | factoryInvoked
  | runCalled
  | filenameGenerated (f : String)
  | fileWritten (f : String)
  | nameSet (s : String)
deriving DecidableEq

/-- engine.core.calculate_impact.  unique_filename is the external unique
filename generator (suffix to fresh name).  Returns the result (or error)
together with the log of performed effects.  The comment argument is
accepted and not interpreted, as in the source. -/
def calculate_impact (layers : List Layer) (impact_fcn : Unit → ImpactFunction)
    (unique_filename : String → String) (comment : String) :
    Except EngineError ImpactResult × List Event :=
  match check_data_integrity layers with
  | .error e => (.error (.validation e), [])
  | .ok _ =>
    let impact_function := impact_fcn ()
    match impact_function.run layers with
    | none =>
      (.error (.computation impact_function.str),
       [.validated, .factoryInvoked, .runCalled])
    | some F =>
      let extension := if F.is_raster then ".tif" else ".shp"
      let output_filename := unique_filename extension
      let F1 : ImpactResult := { F with filename := some output_filename }
      let evs : List Event :=
        [.validated, .factoryInvoked, .runCalled,
         .filenameGenerated output_filename, .fileWritten output_filename]
      if nameTruthy F1.name then (.ok F1, evs)
      else
        let base := String.join (layers.map fun l => l.name ++ " X ")
        let default_name :=
          match impact_function.plugin_name with
          | some pn => base ++ pn
          | none => String.dropRight base 2
        (.ok { F1 with name := some default_name }, evs ++ [.nameSet default_name])

/-- Modelled from the spec: what get_bounding_boxes needs of a resolved
spatial object - the is_riab_spatial_object capability flag, its own
bounding box, and a string rendering. -/
structure SpatialLayer where
  is_riab_spatial_object : Bool
  bounding_box : List ℚ
  str : String
deriving DecidableEq

/-- Failures of get_bounding_boxes: an object without the spatial
capability, a requested bounding box that cannot be coerced to a sequence,
or an empty intersection. -/
inductive ResolveError where
  | notSpatial (obj : String)
  | invalidBbox
  | overlap (msg : String)
deriving DecidableEq

/-- Modelled from the spec: storage.utilities.bbox_intersection, the
external intersection primitive - west and south are the maxima, east and
north the minima, and a degenerate result (west >= east or south >= north)
is reported as none. -/
def bbox_intersection (b1 b2 b3 : List ℚ) : Option (List ℚ) :=
  match b1, b2, b3 with
  | [w1, s1, e1, n1], [w2, s2, e2, n2], [w3, s3, e3, n3] =>
    let w := max w1 (max w2 w3)
    let s := max s1 (max s2 s3)
    let e := min e1 (min e2 e3)
    let n := min n1 (min n2 n3)
    if w < e ∧ s < n then some [w, s, e, n] else none
  | _, _, _ => none

/-- Modelled from the spec: storage.core.bboxlist2string, the external
formatter rendering the coordinates of a bounding box as text (the source
passes decimals=3; the decimal truncation is external and omitted here). -/
def bboxlist2string (b : List ℚ) : String :=
  String.intercalate "," (b.map fun q => toString q)

/-- The diagnostic message raised by get_bounding_boxes when the boxes do
not overlap; it embeds the formatted hazard, exposure and viewport boxes. -/
def overlap_message (haz exp vpt : String) : String :=
  "Bounding boxes of hazard data [" ++ haz ++ "], exposure data [" ++ exp ++
  "] and viewport [" ++ vpt ++ "] did not overlap, so no computation was " ++
  "done. Please make sure you pan to where the data is and that hazard " ++
  "and exposure data overlaps."

/-- engine.core.get_bounding_boxes.  The hazard and exposure inputs are
taken as already resolved layer objects (resolution of filename references
through the external reader is out of scope).  The requested bounding box
models the Python list(req_bbox) coercion: some xs when the argument is
coercible to the sequence xs, none when list() raises.  Note the source
performs no length check on the coerced sequence. -/
def get_bounding_boxes (haz_layer exp_layer : SpatialLayer)
    (req_bbox : Option (List ℚ)) :
    Except ResolveError (List ℚ × Option (List ℚ)) :=
  if haz_layer.is_riab_spatial_object = false then
    .error (.notSpatial haz_layer.str)
  else if exp_layer.is_riab_spatial_object = false then
    .error (.notSpatial exp_layer.str)
  else
    match req_bbox with
    | none => .error .invalidBbox
    | some vpt_bbox =>
      let haz_bbox := haz_layer.bounding_box
      let exp_bbox := exp_layer.bounding_box
      match bbox_intersection vpt_bbox haz_bbox exp_bbox with
      | none =>
        .error (.overlap (overlap_message (bboxlist2string haz_bbox)
          (bboxlist2string exp_bbox) (bboxlist2string vpt_bbox)))
      | some intersection_bbox => .ok (intersection_bbox, none)

/-! ### Derived predicates used to state the claims -/

/-- The keyword check of a layer passes. -/
def kwOk (l : Layer) : Bool :=
  match checkKeywordsAux l REQUIRED_KEYWORDS with
  | .ok _ => true
  | .error _ => false

/-- Reference-geotransform update performed by one loop iteration. -/
def geoStep (g : Option (List ℚ)) (l : Layer) : Option (List ℚ) :=
  match l.data, g with
  | .raster _ _ gl, none => some gl
  | _, g => g

/-- The geotransform comparison performed at one layer succeeds. -/
def geoStepOk (g : Option (List ℚ)) (l : Layer) : Bool :=
  match l.data, g with
  | .raster _ _ gl, some ref => npAllclose geoRtol npAtol ref gl
  | _, _ => true

/-- All geotransform comparisons along the list succeed, starting from the
given reference. -/
def geoChecksOk : Option (List ℚ) → List Layer → Bool
  | _, [] => true
  | g, l :: rest => geoStepOk g l && geoChecksOk (geoStep g l) rest

/-- Reference-coordinate update performed by one loop iteration. -/
def coordStep (c : Option (List (ℚ × ℚ))) (l : Layer) : Option (List (ℚ × ℚ)) :=
  match l.data, c with
  | .vector pts, none => some pts
  | _, c => c

/-- The vector coordinate and length checks at one layer succeed. -/
def coordStepOk (c : Option (List (ℚ × ℚ))) (l : Layer) : Bool :=
  match l.data, c with
  | .vector pts, none => decide (0 < pts.length)
  | .vector pts, some ref => coordsAllclose ref pts && decide (0 < pts.length)
  | _, _ => true

/-- All vector coordinate and length checks along the list succeed. -/
def coordChecksOk : Option (List (ℚ × ℚ)) → List Layer → Bool
  | _, [] => true
  | c, l :: rest => coordStepOk c l && coordChecksOk (coordStep c l) rest

/-- A layer is a raster with the given reference dimensions, or a vector. -/
def dimsMatch (M N : Nat) (l : Layer) : Bool :=
  match l.data with
  | .raster r c _ => r == M && c == N
  | .vector _ => true

/-- The error is the projection-mismatch assertion failure. -/
def CheckError.isProjMismatch : CheckError → Bool
  | .projectionMismatch _ _ _ => true
  | _ => false

/-- The error is the raster dimension-mismatch assertion failure. -/
def CheckError.isDimMismatch : CheckError → Bool
  | .dimensionMismatch _ _ _ _ => true
  | _ => false

/-- The computation failed with a projection mismatch. -/
def isProjErr {α : Type} : Except CheckError α → Bool
  | .error e => e.isProjMismatch
  | .ok _ => false

/-- The computation failed with a dimension mismatch. -/
def isDimErr {α : Type} : Except CheckError α → Bool
  | .error e => e.isDimMismatch
  | .ok _ => false

/-! ### Concrete instances used by witnesses and counterexamples -/

/-- A keyword table satisfying the required-keyword check. -/
def kwGood : List (String × String) := [("title", "t"), ("category", "c")]

/-- The default projection as a value. -/
def projD : Projection := ⟨DEFAULT_PROJECTION⟩

/-- A projection different from the default. -/
def projOther : Projection := ⟨"+proj=merc +datum=WGS84"⟩

/-- A sample 6-component geotransform. -/
def gA : List ℚ := [0, 1, 0, 0, 0, -1]

def cFlood : Layer := ⟨"Flood", kwGood, projD, .raster 2 2 gA⟩

def cPop : Layer := ⟨"Population", kwGood, projD, .raster 2 2 gA⟩

def cBadProj : Layer := ⟨"Bad", kwGood, projOther, .raster 1 1 gA⟩

/-- A deterministic stand-in for the external unique filename generator. -/
def cUniq : String → String := fun s => "out" ++ s

def cVecFirst : Layer := ⟨"Roads", kwGood, projD, .vector [(0, 0)]⟩

def cRsmall : Layer := ⟨"A", kwGood, projD, .raster 2 2 gA⟩

def cRbig : Layer := ⟨"B", kwGood, projD, .raster 3 3 gA⟩

/-- The list of two raster layers sharing the default projection and the
dimensions M x N, with geotransforms g1 and g2. -/
def twoRasters (n1 n2 : String) (k1 k2 : List (String × String))
    (M N : Nat) (g1 g2 : List ℚ) : List Layer :=
  [⟨n1, k1, ⟨DEFAULT_PROJECTION⟩, .raster M N g1⟩,
   ⟨n2, k2, ⟨DEFAULT_PROJECTION⟩, .raster M N g2⟩]

def cRg1 : Layer := ⟨"R1", kwGood, projD, .raster 2 2 [1, 1, 1, 1, 1, 1]⟩

def cRg2 : Layer := ⟨"R2", kwGood, projD, .raster 2 2 [1 + 1/10^9, 1, 1, 1, 1, 1]⟩

def cFcnNoName : Unit → ImpactFunction := fun _ =>
  { run := fun _ => some { is_raster := true, name := none, filename := none },
    plugin_name := none, str := "F" }

def cFcnNull : Unit → ImpactFunction := fun _ =>
  { run := fun _ => none, plugin_name := none, str := "NullFn" }

def cNoKw : Layer := ⟨"Bare", [], projD, .raster 1 1 gA⟩

def isFileWrittenEv : Event → Bool
  | .fileWritten _ => true
  | _ => false

def isNameSetEv : Event → Bool
  | .nameSet _ => true
  | _ => false

def cFcnNamed : Unit → ImpactFunction := fun _ =>
  { run := fun _ => some { is_raster := false, name := none, filename := none },
    plugin_name := some "Earthquake Impact", str := "EQ" }

def cHaz : SpatialLayer := ⟨true, [5, 5, 6, 6], "hazard"⟩

def cExp : SpatialLayer := ⟨true, [0, 0, 10, 10], "exposure"⟩


/-! ### Structural lemmas about the validation loop -/

theorem kwOk_eq_ok {l : Layer} (h : kwOk l = true) :
    checkKeywordsAux l REQUIRED_KEYWORDS = .ok () := by
  unfold kwOk at h
  cases hc : checkKeywordsAux l REQUIRED_KEYWORDS with
  | ok u => cases u; rfl
  | error e => rw [hc] at h; exact absurd h (by simp)

theorem procProj_ok_of_some {st st' : CheckState} {l : Layer} {p : Projection}
    (hp : st.refProj = some p) (h : procProj st l = .ok st') : st' = st := by
  obtain ⟨rp, g0, c0⟩ := st
  simp only at hp
  subst hp
  by_cases hrp : p = l.projection
  · simp only [procProj, if_pos hrp] at h
    exact (Except.ok.inj h).symm
  · simp only [procProj, if_neg hrp] at h
    cases h

theorem procProj_ok_of_eq {st : CheckState} {l : Layer} {p : Projection}
    (hp : st.refProj = some p) (he : l.projection = p) :
    procProj st l = .ok st := by
  obtain ⟨rp, g0, c0⟩ := st
  simp only at hp
  subst hp
  simp [procProj, he]

theorem procProj_err_of_ne {st : CheckState} {l : Layer} {p : Projection}
    (hp : st.refProj = some p) (hne : l.projection ≠ p) :
    procProj st l = .error (.projectionMismatch l.name p l.projection) := by
  obtain ⟨rp, g0, c0⟩ := st
  simp only at hp
  subst hp
  have hne2 : ¬ (p = l.projection) := fun h => hne h.symm
  simp [procProj, hne2]

theorem procGeo_ok {st : CheckState} {l : Layer}
    (hgeo : geoStepOk st.geo l = true) :
    procGeo st l = .ok { st with geo := geoStep st.geo l } := by
  cases hd : l.data with
  | vector pts => simp [procGeo, geoStep, hd]
  | raster r c g =>
    cases hg : st.geo with
    | none => simp [procGeo, geoStep, hd, hg]
    | some ref =>
      simp only [geoStepOk, hd, hg] at hgeo
      simp [procGeo, geoStep, hd, hg, hgeo]
      rw [← hg]

theorem procVec_ok {st : CheckState} {l : Layer}
    (hcoord : coordStepOk st.coords l = true) :
    procVec st l = .ok { st with coords := coordStep st.coords l } := by
  cases hd : l.data with
  | raster r c g => simp [procVec, coordStep, hd]
  | vector pts =>
    cases hc : st.coords with
    | none =>
      simp only [coordStepOk, hd, hc, decide_eq_true_eq] at hcoord
      simp [procVec, coordStep, hd, hc, hcoord]
    | some ref =>
      simp only [coordStepOk, hd, hc, Bool.and_eq_true, decide_eq_true_eq] at hcoord
      simp [procVec, coordStep, hd, hc, hcoord.1, hcoord.2]
      rw [← hc]

theorem processLayer_ok {st : CheckState} {l : Layer} {p : Projection}
    (hp : st.refProj = some p) (hkw : kwOk l = true) (hproj : l.projection = p)
    (hgeo : geoStepOk st.geo l = true) (hcoord : coordStepOk st.coords l = true) :
    processLayer st l =
      .ok { refProj := some p, geo := geoStep st.geo l,
            coords := coordStep st.coords l } := by
  simp only [processLayer, kwOk_eq_ok hkw, procProj_ok_of_eq hp hproj, procGeo_ok hgeo]
  have hc2 : coordStepOk ({ st with geo := geoStep st.geo l } : CheckState).coords l = true :=
    hcoord
  rw [procVec_ok hc2]
  simp only [Except.ok.injEq]
  rw [← hp]

theorem processLayer_projErr {st : CheckState} {l : Layer} {p : Projection}
    (hp : st.refProj = some p) (hkw : kwOk l = true) (hne : l.projection ≠ p) :
    processLayer st l = .error (.projectionMismatch l.name p l.projection) := by
  simp only [processLayer, kwOk_eq_ok hkw, procProj_err_of_ne hp hne]

theorem processLayer_ok_inv {st st' : CheckState} {l : Layer}
    (h : processLayer st l = .ok st') :
    ∃ st1 st2, procProj st l = .ok st1 ∧ procGeo st1 l = .ok st2 ∧
      procVec st2 l = .ok st' := by
  unfold processLayer at h
  cases hkw : checkKeywordsAux l REQUIRED_KEYWORDS with
  | error e => rw [hkw] at h; exact Except.noConfusion h
  | ok u =>
    cases u
    rw [hkw] at h
    have h1 : (match procProj st l with
      | Except.error e => Except.error e
      | Except.ok st1 =>
        match procGeo st1 l with
        | Except.error e => Except.error e
        | Except.ok st2 => procVec st2 l) = Except.ok st' := h
    cases hpp : procProj st l with
    | error e => rw [hpp] at h1; exact Except.noConfusion h1
    | ok st1 =>
      rw [hpp] at h1
      have h2 : (match procGeo st1 l with
        | Except.error e => Except.error e
        | Except.ok st2 => procVec st2 l) = Except.ok st' := h1
      cases hpg : procGeo st1 l with
      | error e => rw [hpg] at h2; exact Except.noConfusion h2
      | ok st2 =>
        rw [hpg] at h2
        exact ⟨st1, st2, rfl, hpg, h2⟩

theorem procGeo_ok_inv {st st2 : CheckState} {l : Layer}
    (h : procGeo st l = .ok st2) :
    st2.refProj = st.refProj ∧ st2.coords = st.coords := by
  cases hd : l.data with
  | vector pts =>
    simp only [procGeo, hd] at h
    obtain rfl := Except.ok.inj h
    exact ⟨rfl, rfl⟩
  | raster r c g =>
    cases hg : st.geo with
    | none =>
      simp only [procGeo, hd, hg] at h
      obtain rfl := Except.ok.inj h
      exact ⟨rfl, rfl⟩
    | some ref =>
      by_cases hall : npAllclose geoRtol npAtol ref g = true
      · simp only [procGeo, hd, hg, hall, if_true] at h
        obtain rfl := Except.ok.inj h
        exact ⟨rfl, rfl⟩
      · simp only [procGeo, hd, hg, if_neg hall] at h
        exact Except.noConfusion h

theorem procVec_ok_inv {st st2 : CheckState} {l : Layer}
    (h : procVec st l = .ok st2) :
    st2.refProj = st.refProj ∧ st2.geo = st.geo := by
  cases hd : l.data with
  | raster r c g =>
    simp only [procVec, hd] at h
    obtain rfl := Except.ok.inj h
    exact ⟨rfl, rfl⟩
  | vector pts =>
    by_cases hlen : 0 < pts.length
    · cases hc : st.coords with
      | none =>
        simp only [procVec, hd, hc, if_pos hlen] at h
        obtain rfl := Except.ok.inj h
        exact ⟨rfl, rfl⟩
      | some ref =>
        by_cases hall : coordsAllclose ref pts = true
        · simp only [procVec, hd, hc, hall, if_true, if_pos hlen] at h
          obtain rfl := Except.ok.inj h
          exact ⟨rfl, rfl⟩
        · simp only [procVec, hd, hc, if_neg hall] at h
          exact Except.noConfusion h
    · cases hc : st.coords with
      | none =>
        simp only [procVec, hd, hc, if_neg hlen] at h
        exact Except.noConfusion h
      | some ref =>
        by_cases hall : coordsAllclose ref pts = true
        · simp only [procVec, hd, hc, hall, if_true, if_neg hlen] at h
          exact Except.noConfusion h
        · simp only [procVec, hd, hc, if_neg hall] at h
          exact Except.noConfusion h

theorem processLayer_refProj {st st' : CheckState} {l : Layer} {p : Projection}
    (hp : st.refProj = some p) (h : processLayer st l = .ok st') :
    st'.refProj = some p := by
  obtain ⟨st1, st2, h1, h2, h3⟩ := processLayer_ok_inv h
  obtain rfl := procProj_ok_of_some hp h1
  rw [(procVec_ok_inv h3).1, (procGeo_ok_inv h2).1, hp]

theorem runChecks_refProj {p : Projection} :
    ∀ (ls : List Layer) (st s : CheckState), st.refProj = some p →
      runChecks st ls = .ok s → s.refProj = some p := by
  intro ls
  induction ls with
  | nil =>
    intro st s hp h
    obtain rfl := Except.ok.inj h
    exact hp
  | cons l rest ih =>
    intro st s hp h
    unfold runChecks at h
    cases hpl : processLayer st l with
    | error e => rw [hpl] at h; exact Except.noConfusion h
    | ok st1 =>
      rw [hpl] at h
      exact ih st1 s (processLayer_refProj hp hpl) h

theorem runChecks_ok {p : Projection} :
    ∀ (ls : List Layer) (st : CheckState), st.refProj = some p →
    (∀ l ∈ ls, kwOk l = true) → (∀ l ∈ ls, l.projection = p) →
    geoChecksOk st.geo ls = true → coordChecksOk st.coords ls = true →
    ∃ s, runChecks st ls = .ok s := by
  intro ls
  induction ls with
  | nil => exact fun st _ _ _ _ _ => ⟨st, rfl⟩
  | cons l rest ih =>
    intro st hp hkw hproj hgeo hcoord
    simp only [geoChecksOk, Bool.and_eq_true] at hgeo
    simp only [coordChecksOk, Bool.and_eq_true] at hcoord
    have hpl := processLayer_ok hp (hkw l (by simp)) (hproj l (by simp)) hgeo.1 hcoord.1
    simp only [runChecks, hpl]
    exact ih _ rfl (fun x hx => hkw x (by simp [hx])) (fun x hx => hproj x (by simp [hx]))
      hgeo.2 hcoord.2

theorem runChecks_projErr {p : Projection} :
    ∀ (ls : List Layer) (st : CheckState), st.refProj = some p →
    (∀ l ∈ ls, kwOk l = true) →
    geoChecksOk st.geo ls = true → coordChecksOk st.coords ls = true →
    (∃ l ∈ ls, l.projection ≠ p) →
    isProjErr (runChecks st ls) = true := by
  intro ls
  induction ls with
  | nil =>
    intro st _ _ _ _ hex
    simp at hex
  | cons l rest ih =>
    intro st hp hkw hgeo hcoord hex
    simp only [geoChecksOk, Bool.and_eq_true] at hgeo
    simp only [coordChecksOk, Bool.and_eq_true] at hcoord
    by_cases hl : l.projection = p
    · have hpl := processLayer_ok hp (hkw l (by simp)) hl hgeo.1 hcoord.1
      simp only [runChecks, hpl]
      apply ih _ rfl (fun x hx => hkw x (by simp [hx])) hgeo.2 hcoord.2
      obtain ⟨x, hx, hxp⟩ := hex
      rcases List.mem_cons.mp hx with rfl | hx2
      · exact absurd hl hxp
      · exact ⟨x, hx2, hxp⟩
    · have hpl := processLayer_projErr hp (hkw l (by simp)) hl
      simp only [runChecks, hpl]
      rfl

/-! ### Lemmas about the raster alignment pass -/

theorem alignLoop_cases (M N : Nat) (rn : String) :
    ∀ ls : List Layer,
      (alignLoop M N rn ls = .ok () ∧ ls.all (dimsMatch M N) = true) ∨
      (isDimErr (alignLoop M N rn ls) = true ∧ ls.all (dimsMatch M N) = false) := by
  intro ls
  induction ls with
  | nil => left; exact ⟨rfl, rfl⟩
  | cons l rest ih =>
    cases hd : l.data with
    | vector pts =>
      rcases ih with ⟨h1, h2⟩ | ⟨h1, h2⟩
      · left
        refine ⟨?_, ?_⟩
        · simp only [alignLoop, hd]; exact h1
        · simp [dimsMatch, hd, h2]
      · right
        refine ⟨?_, ?_⟩
        · simp only [alignLoop, hd]; exact h1
        · simp [dimsMatch, hd, h2]
    | raster r c g =>
      by_cases hr : r = M
      · by_cases hcc : c = N
        · rcases ih with ⟨h1, h2⟩ | ⟨h1, h2⟩
          · left
            refine ⟨?_, ?_⟩
            · simp only [alignLoop, hd, hr, hcc]
              simp only [ne_eq, not_true_eq_false, if_false, ite_false]
              simpa using h1
            · simp [dimsMatch, hd, hr, hcc, h2]
          · right
            refine ⟨?_, ?_⟩
            · simp only [alignLoop, hd, hr, hcc]
              simp only [ne_eq, not_true_eq_false, if_false, ite_false]
              simpa using h1
            · simp [dimsMatch, hd, hr, hcc, h2]
        · right
          refine ⟨?_, ?_⟩
          · simp only [alignLoop, hd, hr]
            simp [hcc, isDimErr, CheckError.isDimMismatch]
          · simp [dimsMatch, hd, hcc]
      · right
        refine ⟨?_, ?_⟩
        · simp only [alignLoop, hd]
          simp [hr, isDimErr, CheckError.isDimMismatch]
        · simp [dimsMatch, hd, hr]

theorem checkAlignment_first_raster (l0 : Layer) (rest : List Layer)
    {M N : Nat} {g : List ℚ} (h0 : l0.data = .raster M N g) :
    checkAlignment (l0 :: rest) = alignLoop M N l0.name (l0 :: rest) := by
  simp only [checkAlignment, h0]

theorem checkAlignment_first_vector {l0 : Layer} (rest : List Layer)
    {pts : List (ℚ × ℚ)} (h0 : l0.data = .vector pts) :
    checkAlignment (l0 :: rest) = .error .attributeError := by
  simp only [checkAlignment, h0]

theorem alignLoop_not_projErr (M N : Nat) (rn : String) :
    ∀ ls : List Layer, isProjErr (alignLoop M N rn ls) = false := by
  intro ls
  induction ls with
  | nil => rfl
  | cons l rest ih =>
    cases hd : l.data with
    | vector pts => simp only [alignLoop, hd]; exact ih
    | raster r c g =>
      by_cases hr : r = M
      · by_cases hcc : c = N
        · simp only [alignLoop, hd, hr, hcc]
          simp only [ne_eq, not_true_eq_false, if_false, ite_false]
          simpa using ih
        · simp only [alignLoop, hd, hr]
          simp [hcc, isProjErr, CheckError.isProjMismatch]
      · simp only [alignLoop, hd]
        simp [hr, isProjErr, CheckError.isProjMismatch]

theorem checkAlignment_not_projErr (ls : List Layer) :
    isProjErr (checkAlignment ls) = false := by
  cases ls with
  | nil => rfl
  | cons l0 rest =>
    cases h0 : l0.data with
    | vector pts => rw [checkAlignment_first_vector rest h0]; rfl
    | raster M N g =>
      rw [checkAlignment_first_raster l0 rest h0]
      exact alignLoop_not_projErr M N l0.name (l0 :: rest)

/-! ### Bridging lemmas for check_data_integrity -/

theorem check_eq_alignment {ls : List Layer} {s : CheckState}
    (h : runChecks initState ls = .ok s) :
    check_data_integrity ls = checkAlignment ls := by
  unfold check_data_integrity
  rw [h]

theorem check_eq_error {ls : List Layer} {e : CheckError}
    (h : runChecks initState ls = .error e) :
    check_data_integrity ls = .error e := by
  unfold check_data_integrity
  rw [h]

theorem isProjErr_check_of_runChecks {ls : List Layer}
    (h : isProjErr (runChecks initState ls) = true) :
    isProjErr (check_data_integrity ls) = true := by
  cases hr : runChecks initState ls with
  | error e =>
    rw [check_eq_error hr]
    rw [hr] at h
    exact h
  | ok s =>
    rw [hr] at h
    exact absurd h (by simp [isProjErr])

/-! ### Claim theorems -/

/-- C1: check_data_integrity compares every layer projection to the
process-wide WGS84 default.  Provided the keyword, geotransform and vector
checks pass, it fails with the projection-mismatch assertion exactly when
some layer projection differs from the default; and the branch adopting
the first layer projection when the reference is unset is never taken,
because every state reachable by the loop from the initial state still
carries the pre-seeded default reference projection. -/
theorem projection_consistency (layers : List Layer)
    (hkw : ∀ l ∈ layers, kwOk l = true)
    (hgeo : geoChecksOk none layers = true)
    (hcoord : coordChecksOk none layers = true) :
    (isProjErr (check_data_integrity layers) = true ↔
      ∃ l ∈ layers, l.projection ≠ Projection.mk DEFAULT_PROJECTION)
    ∧ (∀ (ls : List Layer) (s : CheckState),
        runChecks initState ls = .ok s →
        s.refProj = some (Projection.mk DEFAULT_PROJECTION)) := by
  constructor
  · constructor
    · intro hpe
      by_contra hno
      push_neg at hno
      obtain ⟨s, hs⟩ := runChecks_ok (p := ⟨DEFAULT_PROJECTION⟩) layers initState rfl hkw
        hno hgeo hcoord
      rw [check_eq_alignment hs, checkAlignment_not_projErr layers] at hpe
      cases hpe
    · intro hex
      exact isProjErr_check_of_runChecks
        (runChecks_projErr (p := ⟨DEFAULT_PROJECTION⟩) layers initState rfl hkw hgeo hcoord hex)
  · intro ls s h
    exact runChecks_refProj (p := ⟨DEFAULT_PROJECTION⟩) ls initState s rfl h

/-- Witness for projection_consistency: the singleton list holding a layer
with a non-default projection satisfies the hypotheses, and there the
validation fails with the projection mismatch. -/
theorem projection_consistency_witness :
    ((∀ l ∈ [cBadProj], kwOk l = true)
      ∧ geoChecksOk none [cBadProj] = true
      ∧ coordChecksOk none [cBadProj] = true)
    ∧ ((isProjErr (check_data_integrity [cBadProj]) = true ↔
        ∃ l ∈ [cBadProj], l.projection ≠ Projection.mk DEFAULT_PROJECTION)
      ∧ (∀ (ls : List Layer) (s : CheckState),
          runChecks initState ls = .ok s →
          s.refProj = some (Projection.mk DEFAULT_PROJECTION))) :=
  ⟨⟨by decide, by decide, by decide⟩,
    projection_consistency [cBadProj] (by decide) (by decide) (by decide)⟩

/-- C10: on the empty layer list the per-layer loop is vacuous and the
alignment pass immediately indexes layer_files[0]; check_data_integrity
therefore ends in the index error - an out-of-bounds failure, not a
validation assertion and not success. -/
theorem empty_list_crashes :
    check_data_integrity ([] : List Layer) = .error CheckError.indexError
    ∧ check_data_integrity ([] : List Layer) ≠ .ok () := by
  constructor
  · rfl
  · decide

/-- C3 (amended): provided the per-layer checks pass and the FIRST layer
of the list is a raster with dimensions M x N, validation succeeds exactly
when every raster layer matches M x N (equivalently, when no two rasters
differ in rows or columns), and fails with the dimension-mismatch
assertion exactly otherwise.  When the first layer is a vector the
alignment pass does not run at all: reading the raster-only rows attribute
of layer_files[0] crashes with the attribute error instead (see the
counterexample), so the claim restricted to first-raster lists is what the
code implements. -/
theorem raster_alignment (l0 : Layer) (rest : List Layer)
    (M N : Nat) (g : List ℚ) (h0 : l0.data = .raster M N g)
    (hkw : ∀ l ∈ l0 :: rest, kwOk l = true)
    (hproj : ∀ l ∈ l0 :: rest, l.projection = Projection.mk DEFAULT_PROJECTION)
    (hgeo : geoChecksOk none (l0 :: rest) = true)
    (hcoord : coordChecksOk none (l0 :: rest) = true) :
    (check_data_integrity (l0 :: rest) = .ok () ↔
      (l0 :: rest).all (dimsMatch M N) = true)
    ∧ (isDimErr (check_data_integrity (l0 :: rest)) = true ↔
      ¬ (l0 :: rest).all (dimsMatch M N) = true) := by
  obtain ⟨s, hs⟩ := runChecks_ok (p := ⟨DEFAULT_PROJECTION⟩) (l0 :: rest) initState rfl
    hkw hproj hgeo hcoord
  rw [check_eq_alignment hs, checkAlignment_first_raster l0 rest h0]
  rcases alignLoop_cases M N l0.name (l0 :: rest) with ⟨h1, h2⟩ | ⟨h1, h2⟩
  · rw [h1, h2]
    constructor
    · simp
    · constructor
      · intro hde; cases hde
      · intro hne; exact absurd rfl hne
  · constructor
    · constructor
      · intro hok; rw [hok] at h1; cases h1
      · intro hall; rw [h2] at hall; cases hall
    · constructor
      · intro _; rw [h2]; simp
      · intro _; exact h1

/-- Counterexample to C3 as stated: the list [cVecFirst, cRsmall, cRbig]
contains two raster layers whose rows (2 vs 3) and columns differ, yet
validation does not fail with the dimension mismatch - because the first
element is a vector layer, the alignment pass reads its missing raster
only rows attribute and crashes with the attribute error. -/
theorem raster_alignment_counterexample :
    cRsmall.is_raster = true ∧ cRbig.is_raster = true
    ∧ cRsmall.data = LayerData.raster 2 2 gA ∧ cRbig.data = LayerData.raster 3 3 gA
    ∧ cVecFirst.is_vector = true
    ∧ check_data_integrity [cVecFirst, cRsmall, cRbig] = .error CheckError.attributeError
    ∧ isDimErr (check_data_integrity [cVecFirst, cRsmall, cRbig]) = false := by
  refine ⟨rfl, rfl, rfl, rfl, rfl, ?_, ?_⟩ <;> decide

/-- Witness for raster_alignment: a first-raster list containing a raster
with different dimensions satisfies the hypotheses, and there the
validation fails with the dimension mismatch. -/
theorem raster_alignment_witness :
    (cRsmall.data = LayerData.raster 2 2 gA
      ∧ (∀ l ∈ cRsmall :: [cRbig], kwOk l = true)
      ∧ (∀ l ∈ cRsmall :: [cRbig], l.projection = Projection.mk DEFAULT_PROJECTION)
      ∧ geoChecksOk none (cRsmall :: [cRbig]) = true
      ∧ coordChecksOk none (cRsmall :: [cRbig]) = true)
    ∧ ((check_data_integrity (cRsmall :: [cRbig]) = .ok () ↔
        (cRsmall :: [cRbig]).all (dimsMatch 2 2) = true)
      ∧ (isDimErr (check_data_integrity (cRsmall :: [cRbig])) = true ↔
        ¬ (cRsmall :: [cRbig]).all (dimsMatch 2 2) = true)) :=
  ⟨⟨rfl, by decide, by decide, by decide, by decide⟩,
    raster_alignment cRsmall [cRbig] 2 2 gA rfl (by decide) (by decide)
      (by decide) (by decide)⟩

theorem processLayer_geoErr {st : CheckState} {l : Layer} {p : Projection}
    {ref g : List ℚ} {r c : Nat}
    (hp : st.refProj = some p) (hkw : kwOk l = true) (hproj : l.projection = p)
    (hd : l.data = .raster r c g) (hg : st.geo = some ref)
    (hA : npAllclose geoRtol npAtol ref g = false) :
    processLayer st l = .error (.geotransformMismatch ref g) := by
  simp only [processLayer, kwOk_eq_ok hkw, procProj_ok_of_eq hp hproj]
  simp only [procGeo, hd, hg, hA]
  simp

theorem npAllclose_of_pointwise {g1 g2 : List ℚ} (hlen : g1.length = g2.length)
    (h : ∀ p ∈ g1.zip g2, |p.1 - p.2| ≤ geoRtol * |p.2|) :
    npAllclose geoRtol npAtol g1 g2 = true := by
  unfold npAllclose
  rw [Bool.and_eq_true]
  constructor
  · exact beq_iff_eq.mpr hlen
  · rw [List.all_eq_true]
    intro p hp
    unfold approxEq
    rw [decide_eq_true_eq]
    have h1 := h p hp
    have h0 : (0 : ℚ) ≤ npAtol := by norm_num [npAtol]
    linarith

/-- C4 (amended): for a validated raster pair, the geotransform of the
second raster is compared to the first with numpy.allclose at relative
tolerance 1e-12 TOGETHER WITH the numpy default absolute tolerance 1e-8,
i.e. componentwise |ref - g| <= 1e-8 + 1e-12 * |g|.  Differences within
the relative tolerance are therefore always accepted, but a difference
exceeding the relative tolerance is still accepted whenever it lies within
the absolute tolerance (see the counterexample). -/
theorem geotransform_tolerance (n1 n2 : String) (k1 k2 : List (String × String))
    (M N : Nat) (g1 g2 : List ℚ)
    (hkw1 : kwOk ⟨n1, k1, ⟨DEFAULT_PROJECTION⟩, .raster M N g1⟩ = true)
    (hkw2 : kwOk ⟨n2, k2, ⟨DEFAULT_PROJECTION⟩, .raster M N g2⟩ = true)
    (hlen : g1.length = g2.length) :
    (check_data_integrity (twoRasters n1 n2 k1 k2 M N g1 g2) = .ok () ↔
      npAllclose geoRtol npAtol g1 g2 = true)
    ∧ ((∀ p ∈ g1.zip g2, |p.1 - p.2| ≤ geoRtol * |p.2|) →
      check_data_integrity (twoRasters n1 n2 k1 k2 M N g1 g2) = .ok ()) := by
  unfold twoRasters
  have hpl1 : processLayer initState ⟨n1, k1, ⟨DEFAULT_PROJECTION⟩, .raster M N g1⟩ =
      .ok ⟨some ⟨DEFAULT_PROJECTION⟩, some g1, none⟩ :=
    processLayer_ok rfl hkw1 rfl rfl rfl
  have hiff : check_data_integrity ([⟨n1, k1, ⟨DEFAULT_PROJECTION⟩, .raster M N g1⟩,
          ⟨n2, k2, ⟨DEFAULT_PROJECTION⟩, .raster M N g2⟩]) = .ok () ↔
      npAllclose geoRtol npAtol g1 g2 = true := by
    by_cases hA : npAllclose geoRtol npAtol g1 g2 = true
    · have hpl2 : processLayer ⟨some ⟨DEFAULT_PROJECTION⟩, some g1, none⟩
          ⟨n2, k2, ⟨DEFAULT_PROJECTION⟩, .raster M N g2⟩ =
          .ok ⟨some ⟨DEFAULT_PROJECTION⟩, some g1, none⟩ :=
        processLayer_ok rfl hkw2 rfl hA rfl
      have hrc : runChecks initState ([⟨n1, k1, ⟨DEFAULT_PROJECTION⟩, .raster M N g1⟩,
          ⟨n2, k2, ⟨DEFAULT_PROJECTION⟩, .raster M N g2⟩]) =
          .ok ⟨some ⟨DEFAULT_PROJECTION⟩, some g1, none⟩ := by
        simp only [runChecks, hpl1, hpl2]
      rw [check_eq_alignment hrc,
        checkAlignment_first_raster ⟨n1, k1, ⟨DEFAULT_PROJECTION⟩, .raster M N g1⟩ _ rfl]
      rcases alignLoop_cases M N n1 ([⟨n1, k1, ⟨DEFAULT_PROJECTION⟩, .raster M N g1⟩,
          ⟨n2, k2, ⟨DEFAULT_PROJECTION⟩, .raster M N g2⟩]) with ⟨h1, h2⟩ | ⟨h1, h2⟩
      · rw [h1]
        simp [hA]
      · exfalso
        have hall : ([⟨n1, k1, ⟨DEFAULT_PROJECTION⟩, .raster M N g1⟩,
          ⟨n2, k2, ⟨DEFAULT_PROJECTION⟩, .raster M N g2⟩]).all (dimsMatch M N) = true := by
          simp [dimsMatch]
        rw [hall] at h2
        cases h2
    · have hA2 : npAllclose geoRtol npAtol g1 g2 = false := by
        cases hh : npAllclose geoRtol npAtol g1 g2
        · rfl
        · exact absurd hh hA
      have hpl2 : processLayer ⟨some ⟨DEFAULT_PROJECTION⟩, some g1, none⟩
          ⟨n2, k2, ⟨DEFAULT_PROJECTION⟩, .raster M N g2⟩ =
          .error (.geotransformMismatch g1 g2) :=
        processLayer_geoErr rfl hkw2 rfl rfl rfl hA2
      have hrc : runChecks initState ([⟨n1, k1, ⟨DEFAULT_PROJECTION⟩, .raster M N g1⟩,
          ⟨n2, k2, ⟨DEFAULT_PROJECTION⟩, .raster M N g2⟩]) =
          .error (.geotransformMismatch g1 g2) := by
        simp only [runChecks, hpl1, hpl2]
      rw [check_eq_error hrc]
      constructor
      · intro hcon; cases hcon
      · intro hcon; exact absurd hcon hA
  exact ⟨hiff, fun hpw => hiff.mpr (npAllclose_of_pointwise hlen hpw)⟩

/-- Counterexample to C4 as stated: the first geotransform component of
cRg2 differs from the reference component by 1e-9, which exceeds what the
relative tolerance 1e-12 alone allows, yet validation accepts the pair,
because numpy.allclose also keeps its default absolute tolerance 1e-8. -/
theorem geotransform_tolerance_counterexample :
    check_data_integrity [cRg1, cRg2] = .ok ()
    ∧ ¬ (|(1 : ℚ) - (1 + 1/10^9)| ≤ geoRtol * |1 + (1 : ℚ)/10^9|) := by
  constructor <;> decide

/-- Witness for geotransform_tolerance at a concrete raster pair with
equal geotransforms. -/
theorem geotransform_tolerance_witness :
    (kwOk ⟨"R1", kwGood, ⟨DEFAULT_PROJECTION⟩, .raster 2 2 gA⟩ = true
      ∧ kwOk ⟨"R2", kwGood, ⟨DEFAULT_PROJECTION⟩, .raster 2 2 gA⟩ = true
      ∧ gA.length = gA.length)
    ∧ ((check_data_integrity (twoRasters "R1" "R2" kwGood kwGood 2 2 gA gA) = .ok () ↔
        npAllclose geoRtol npAtol gA gA = true)
      ∧ ((∀ p ∈ gA.zip gA, |p.1 - p.2| ≤ geoRtol * |p.2|) →
        check_data_integrity (twoRasters "R1" "R2" kwGood kwGood 2 2 gA gA) = .ok ())) :=
  ⟨⟨by decide, by decide, rfl⟩,
    geotransform_tolerance "R1" "R2" kwGood kwGood 2 2 gA gA (by decide) (by decide) rfl⟩

/-- C2 (amended): when validation passes, the plugin returns a result with
an unset (falsy) name and exposes no plugin_name, calculate_impact builds
the default name by appending "<layer name> X " for every input layer and
then stripping only the LAST TWO characters (the Python slice [:-2], i.e.
the final "X "), so the space before that X remains: for layers named
Flood and Population the assigned name is "Flood X Population " with a
trailing space, not "Flood X Population". -/
theorem default_name (layers : List Layer) (impact_fcn : Unit → ImpactFunction)
    (unique_filename : String → String) (comment : String) (F : ImpactResult)
    (hchk : check_data_integrity layers = .ok ())
    (hrun : (impact_fcn ()).run layers = some F)
    (hname : nameTruthy F.name = false)
    (hpn : (impact_fcn ()).plugin_name = none) :
    (calculate_impact layers impact_fcn unique_filename comment).1 =
      .ok { F with
        filename := some (unique_filename (if F.is_raster then ".tif" else ".shp")),
        name := some (String.dropRight
          (String.join (layers.map fun l => l.name ++ " X ")) 2) } := by
  simp only [calculate_impact, hchk, hrun, hpn, hname]
  simp [hname]

/-- Counterexample to C2 as stated: with input layers Flood and Population
and a plugin without display name, the name assigned by calculate_impact
is "Flood X Population " (trailing space kept by the [:-2] slice), which
differs from the claimed "Flood X Population". -/
theorem default_name_counterexample :
    (calculate_impact [cFlood, cPop] cFcnNoName cUniq "").1 =
      .ok { is_raster := true, name := some "Flood X Population ",
            filename := some "out.tif" }
    ∧ ("Flood X Population " : String) ≠ "Flood X Population" := by
  constructor <;> decide

/-- Witness for default_name at the Flood and Population layers: the
hypotheses hold and the synthesized name evaluates to
"Flood X Population " with its trailing space. -/
theorem default_name_witness :
    (check_data_integrity [cFlood, cPop] = .ok ()
      ∧ (cFcnNoName ()).run [cFlood, cPop] =
          some { is_raster := true, name := none, filename := none }
      ∧ nameTruthy (none : Option String) = false
      ∧ (cFcnNoName ()).plugin_name = none)
    ∧ (calculate_impact [cFlood, cPop] cFcnNoName cUniq "").1 =
      .ok { is_raster := true,
            name := some (String.dropRight
              (String.join ([cFlood, cPop].map fun l => l.name ++ " X ")) 2),
            filename := some (cUniq ".tif") } :=
  ⟨⟨by decide, rfl, rfl, rfl⟩,
    default_name [cFlood, cPop] cFcnNoName cUniq ""
      { is_raster := true, name := none, filename := none }
      (by decide) rfl rfl rfl⟩

/-- C7: when validation passes but the plugin run returns none,
calculate_impact fails with the computation error after the run, and the
effect log shows that no unique filename was generated, nothing was
written to file and no name was assigned. -/
theorem null_result (layers : List Layer) (impact_fcn : Unit → ImpactFunction)
    (unique_filename : String → String) (comment : String)
    (hchk : check_data_integrity layers = .ok ())
    (hrun : (impact_fcn ()).run layers = none) :
    calculate_impact layers impact_fcn unique_filename comment =
      (.error (.computation (impact_fcn ()).str),
       [.validated, .factoryInvoked, .runCalled])
    ∧ (∀ f, Event.filenameGenerated f ∉
        (calculate_impact layers impact_fcn unique_filename comment).2)
    ∧ (∀ f, Event.fileWritten f ∉
        (calculate_impact layers impact_fcn unique_filename comment).2)
    ∧ (∀ s, Event.nameSet s ∉
        (calculate_impact layers impact_fcn unique_filename comment).2) := by
  have h : calculate_impact layers impact_fcn unique_filename comment =
      (.error (.computation (impact_fcn ()).str),
       [.validated, .factoryInvoked, .runCalled]) := by
    simp only [calculate_impact, hchk, hrun]
  refine ⟨h, ?_, ?_, ?_⟩ <;> (intro x; rw [h]; simp)

/-- Witness for null_result: validation passes on the Flood and Population
layers and the null-returning plugin triggers the computation error with
no write effects. -/
theorem null_result_witness :
    (check_data_integrity [cFlood, cPop] = .ok ()
      ∧ (cFcnNull ()).run [cFlood, cPop] = none)
    ∧ (calculate_impact [cFlood, cPop] cFcnNull cUniq "" =
        (.error (.computation (cFcnNull ()).str),
         [.validated, .factoryInvoked, .runCalled])
      ∧ (∀ f, Event.filenameGenerated f ∉
          (calculate_impact [cFlood, cPop] cFcnNull cUniq "").2)
      ∧ (∀ f, Event.fileWritten f ∉
          (calculate_impact [cFlood, cPop] cFcnNull cUniq "").2)
      ∧ (∀ s, Event.nameSet s ∉
          (calculate_impact [cFlood, cPop] cFcnNull cUniq "").2)) :=
  ⟨⟨by decide, rfl⟩, null_result [cFlood, cPop] cFcnNull cUniq "" (by decide) rfl⟩

/-- C8: when validation fails, calculate_impact surfaces exactly that
error (as the validation case of its error type) and the effect log is
empty - the factory is not invoked, run is not called, no filename is
generated, nothing is written and no name is assigned. -/
theorem validation_propagates (layers : List Layer)
    (impact_fcn : Unit → ImpactFunction) (unique_filename : String → String)
    (comment : String) (e : CheckError)
    (hchk : check_data_integrity layers = .error e) :
    calculate_impact layers impact_fcn unique_filename comment =
      (.error (.validation e), []) := by
  simp only [calculate_impact, hchk]

/-- Witness for validation_propagates: a layer without keywords makes
validation fail with the missing keyword error, and calculate_impact
returns exactly that error with the empty effect log. -/
theorem validation_propagates_witness :
    check_data_integrity [cNoKw] = .error (.missingKeyword "Bare" "title")
    ∧ calculate_impact [cNoKw] cFcnNull cUniq "" =
      (.error (.validation (.missingKeyword "Bare" "title")), []) :=
  ⟨by decide,
    validation_propagates [cNoKw] cFcnNull cUniq "" (.missingKeyword "Bare" "title")
      (by decide)⟩

/-- C9 (amended): on every successful invocation the observable stages
occur in the order validated, factory invocation, plugin run, filename
generation, persistence (write_to_file), and LAST the optional default
name assignment: the result name is assigned after the file is written,
not before. -/
theorem stage_order (layers : List Layer) (impact_fcn : Unit → ImpactFunction)
    (unique_filename : String → String) (comment : String) (F : ImpactResult)
    (hchk : check_data_integrity layers = .ok ())
    (hrun : (impact_fcn ()).run layers = some F) :
    ∃ fn rest,
      (calculate_impact layers impact_fcn unique_filename comment).2 =
        [.validated, .factoryInvoked, .runCalled,
         .filenameGenerated fn, .fileWritten fn] ++ rest
      ∧ (rest = [] ∨ ∃ s, rest = [Event.nameSet s]) := by
  refine ⟨unique_filename (if F.is_raster then ".tif" else ".shp"), ?_⟩
  by_cases hname : nameTruthy F.name = true
  · refine ⟨[], ?_, Or.inl rfl⟩
    simp only [calculate_impact, hchk, hrun]
    simp [hname]
  · have hname2 : nameTruthy F.name = false := by
      cases hh : nameTruthy F.name
      · rfl
      · exact absurd hh hname
    cases hpn : (impact_fcn ()).plugin_name with
    | none =>
      refine ⟨[Event.nameSet (String.dropRight
        (String.join (layers.map fun l => l.name ++ " X ")) 2)], ?_, Or.inr ⟨_, rfl⟩⟩
      simp only [calculate_impact, hchk, hrun, hpn]
      simp [hname2]
    | some pn =>
      refine ⟨[Event.nameSet
        ((String.join (layers.map fun l => l.name ++ " X ")) ++ pn)], ?_, Or.inr ⟨_, rfl⟩⟩
      simp only [calculate_impact, hchk, hrun, hpn]
      simp [hname2]

/-- Counterexample to C9 as stated: in this successful invocation the
write-to-file event sits at index 4 of the effect log and the name
assignment at index 5, so the result is persisted strictly BEFORE it is
named, refuting the claimed order validated, computed, named, persisted. -/
theorem stage_order_counterexample :
    (calculate_impact [cFlood, cPop] cFcnNamed cUniq "").2 =
      [.validated, .factoryInvoked, .runCalled, .filenameGenerated "out.shp",
       .fileWritten "out.shp", .nameSet "Flood X Population X Earthquake Impact"]
    ∧ List.findIdx isFileWrittenEv (calculate_impact [cFlood, cPop] cFcnNamed cUniq "").2 = 4
    ∧ List.findIdx isNameSetEv (calculate_impact [cFlood, cPop] cFcnNamed cUniq "").2 = 5 := by
  refine ⟨?_, ?_, ?_⟩ <;> decide

/-- Witness for stage_order at the Flood and Population layers with the
named plugin. -/
theorem stage_order_witness :
    (check_data_integrity [cFlood, cPop] = .ok ()
      ∧ (cFcnNamed ()).run [cFlood, cPop] =
          some { is_raster := false, name := none, filename := none })
    ∧ ∃ fn rest,
      (calculate_impact [cFlood, cPop] cFcnNamed cUniq "").2 =
        [.validated, .factoryInvoked, .runCalled,
         .filenameGenerated fn, .fileWritten fn] ++ rest
      ∧ (rest = [] ∨ ∃ s, rest = [Event.nameSet s]) :=
  ⟨⟨by decide, rfl⟩,
    stage_order [cFlood, cPop] cFcnNamed cUniq ""
      { is_raster := false, name := none, filename := none } (by decide) rfl⟩

/-- C5 (amended): get_bounding_boxes raises the invalid bounding box error
exactly when the requested box cannot be coerced to a sequence at all.  No
length check is performed on the coerced sequence, so a request coercible
to a sequence of a length other than 4 passes the input check and reaches
the intersection step (see the counterexample). -/
theorem invalid_bbox_iff (haz exp : SpatialLayer) (req : Option (List ℚ))
    (hh : haz.is_riab_spatial_object = true)
    (he : exp.is_riab_spatial_object = true) :
    get_bounding_boxes haz exp req = .error .invalidBbox ↔ req = none := by
  cases req with
  | none => simp [get_bounding_boxes, hh, he]
  | some xs =>
    simp only [get_bounding_boxes, hh, he]
    cases hbi : bbox_intersection xs haz.bounding_box exp.bounding_box with
    | none => simp
    | some ib => simp

/-- Counterexample to C5 as stated: the request [0, 0] is coercible only
to a sequence of length 2, not to one of exactly 4 elements, yet
get_bounding_boxes does not reject it with the invalid bounding box error:
coercion succeeds and the intersection step is reached, which reports no
overlap for the malformed box. -/
theorem invalid_bbox_counterexample :
    get_bounding_boxes cHaz cExp (some [0, 0]) ≠ .error ResolveError.invalidBbox
    ∧ (∃ msg, get_bounding_boxes cHaz cExp (some [0, 0]) = .error (.overlap msg)) := by
  constructor
  · decide
  · exact ⟨_, rfl⟩

/-- Witness for invalid_bbox_iff at the concrete hazard and exposure
layers with an uncoercible request. -/
theorem invalid_bbox_witness :
    (cHaz.is_riab_spatial_object = true ∧ cExp.is_riab_spatial_object = true)
    ∧ (get_bounding_boxes cHaz cExp none = .error .invalidBbox ↔
        (none : Option (List ℚ)) = none) :=
  ⟨⟨rfl, rfl⟩, invalid_bbox_iff cHaz cExp none rfl rfl⟩

/-- C6: whenever the intersection primitive reports no overlap of the
viewport, hazard and exposure boxes, get_bounding_boxes fails with the
overlap error whose diagnostic message contains the formatted coordinates
of all three contributing boxes. -/
theorem no_overlap_error (haz exp : SpatialLayer) (vpt : List ℚ)
    (hh : haz.is_riab_spatial_object = true)
    (he : exp.is_riab_spatial_object = true)
    (hnone : bbox_intersection vpt haz.bounding_box exp.bounding_box = none) :
    ∃ msg, get_bounding_boxes haz exp (some vpt) = .error (.overlap msg)
      ∧ (bboxlist2string haz.bounding_box).data <:+: msg.data
      ∧ (bboxlist2string exp.bounding_box).data <:+: msg.data
      ∧ (bboxlist2string vpt).data <:+: msg.data := by
  refine ⟨overlap_message (bboxlist2string haz.bounding_box)
    (bboxlist2string exp.bounding_box) (bboxlist2string vpt), ?_, ?_, ?_, ?_⟩
  · simp [get_bounding_boxes, hh, he, hnone]
  · unfold overlap_message
    simp only [String.data_append]
    exact ⟨"Bounding boxes of hazard data [".data, _, by simp only [List.append_assoc]; rfl⟩
  · unfold overlap_message
    simp only [String.data_append]
    refine ⟨"Bounding boxes of hazard data [".data ++
      (bboxlist2string haz.bounding_box).data ++ "], exposure data [".data, _,
      by simp only [List.append_assoc]; rfl⟩
  · unfold overlap_message
    simp only [String.data_append]
    refine ⟨"Bounding boxes of hazard data [".data ++
      (bboxlist2string haz.bounding_box).data ++ "], exposure data [".data ++
      (bboxlist2string exp.bounding_box).data ++ "] and viewport [".data, _,
      by simp only [List.append_assoc]; rfl⟩

/-- Witness for no_overlap_error: with viewport [0, 0, 1, 1] and hazard
box [5, 5, 6, 6] the intersection is empty and resolution fails with the
overlap error. -/
theorem no_overlap_error_witness :
    (cHaz.is_riab_spatial_object = true ∧ cExp.is_riab_spatial_object = true
      ∧ bbox_intersection [0, 0, 1, 1] cHaz.bounding_box cExp.bounding_box = none)
    ∧ ∃ msg, get_bounding_boxes cHaz cExp (some [0, 0, 1, 1]) = .error (.overlap msg)
      ∧ (bboxlist2string cHaz.bounding_box).data <:+: msg.data
      ∧ (bboxlist2string cExp.bounding_box).data <:+: msg.data
      ∧ (bboxlist2string [0, 0, 1, 1]).data <:+: msg.data :=
  ⟨⟨rfl, rfl, by decide⟩,
    no_overlap_error cHaz cExp [0, 0, 1, 1] rfl rfl (by decide)⟩

end Riab
